import Mathlib

/-!
Shallow embedding of the SoraCleaner single-page application
(src/types.ts: data model, VideoUploader.handleLinkSubmit, App.captureFirstFrame,
App.startProcessing; src/unnamed/part_000: getAiClient, analyzeVideoContent,
cleanFrame, generateCleanVideo).

The remote AI collaborator (Gemini / Imagen / Veo SDK) and the browser
environment (canvas, window.aistudio) are opaque external parties; their
responses are supplied by an environment record whose fields are functions of
the request payloads.  JavaScript string truthiness and optional chaining are
made explicit with Option and helper functions.  The unbounded polling loop is
given a fuel parameter; fuel exhaustion returns none (divergence marker).
-/

deriving instance DecidableEq for Except

/-- JavaScript truthiness of a nullable string: false for null/undefined and
for the empty string. -/
def jsTruthy (s : Option String) : Bool :=
  match s with
  | none => false
  | some s => s != ""

/-- JavaScript expression `x || d` for a nullable string x. -/
def jsOrS (x : Option String) (d : String) : String :=
  match x with
  | none => d
  | some s => if s = "" then d else s

/-- JavaScript expression `s || d` for a plain string s. -/
def jsOrStr (s d : String) : String :=
  if s = "" then d else s

/-- Whether the first character list starts the second one. -/
def listBeginsWith : List Char → List Char → Bool
  | [], _ => true
  | _ :: _, [] => false
  | p :: ps, c :: cs => p == c && listBeginsWith ps cs

/-- Whether the pattern occurs somewhere in the character list. -/
def listOccurs (pat : List Char) : List Char → Bool
  | [] => listBeginsWith pat []
  | c :: cs => listBeginsWith pat (c :: cs) || listOccurs pat cs

/-- JavaScript `s.includes(pat)`: the pattern occurs as a contiguous substring
of s. -/
def strContains (s pat : String) : Bool :=
  listOccurs pat.data s.data

/-- Whether the character list ends with the pattern. -/
def listEndsWith (pat s : List Char) : Bool :=
  listBeginsWith pat.reverse s.reverse

/-- The status enumeration of ProcessingState (src/types.ts line 23). -/
inductive Status where
  | idle
  | analyzing
  | cleaning_frame
  | generating
  | completed
  | error
deriving DecidableEq, Repr

/-- ProcessingState (src/types.ts lines 22-27).  The progress field is an
Option because the error transition in startProcessing omits it. -/
structure ProcessingState where
  status : Status
  message : String
  progress : Option Nat
  error : Option String := none
deriving DecidableEq, Repr

/-- VideoData (src/types.ts lines 29-35); the File payload is abstracted to
its content string. -/
structure VideoData where
  file : Option String
  url : Option String
  previewUrl : Option String
  base64Data : Option String := none
  mimeType : Option String := none
deriving DecidableEq, Repr

/-- Observable outcome of VideoUploader.handleLinkSubmit: the VideoData passed
to onVideoSelected, if any, and whether the alert warning was shown. -/
structure LinkOut where
  selected : Option VideoData
  alerted : Bool
deriving DecidableEq, Repr

/-- The regex test `linkInput.match(/\.(mp4|webm|mov)$/i)` (src/types.ts
line 103): the link, lowercased (the pattern is ASCII and the regex is not in
unicode mode, so ASCII case folding is exact), ends with one of the three
extensions anchored at the end of the input. -/
def linkMatchesVideoExt (s : String) : Bool :=
  let low := s.data.map Char.toLower
  listEndsWith ".mp4".data low || listEndsWith ".webm".data low || listEndsWith ".mov".data low

/-- VideoUploader.handleLinkSubmit (src/types.ts lines 94-112).  An empty
input returns early with no record and no alert; a matching link produces a
VideoData with url and previewUrl both the link and file null; otherwise the
alert is shown and no record is produced. -/
def handleLinkSubmit (linkInput : String) : LinkOut :=
  if linkInput = "" then
    { selected := none, alerted := false }
  else if linkMatchesVideoExt linkInput then
    { selected := some { file := none, url := some linkInput, previewUrl := some linkInput },
      alerted := false }
  else
    { selected := none, alerted := true }

/-- Browser environment for App.captureFirstFrame: presence of the video and
canvas refs, the decoded video dimensions, availability of the 2d context, and
the base64 PNG body the canvas encoder produces for a given drawn size. -/
structure CaptureEnv where
  videoPresent : Bool
  canvasPresent : Bool
  videoWidth : Nat
  videoHeight : Nat
  ctxAvailable : Bool
  pngBase64 : Nat → Nat → String

/-- canvas.toDataURL for the canvas sized to the video.  Per the HTML canvas
specification, a canvas with zero width or height yields the string
"data:,"; otherwise a data URL with the base64 PNG body. -/
def canvasToDataURL (env : CaptureEnv) : String :=
  if env.videoWidth = 0 || env.videoHeight = 0 then "data:,"
  else "data:image/png;base64," ++ env.pngBase64 env.videoWidth env.videoHeight

/-- JavaScript String.prototype.split with a single-character separator,
producing the full list of pieces. -/
def splitOnChar (sep : Char) : List Char → List (List Char)
  | [] => [[]]
  | c :: cs =>
    let r := splitOnChar sep cs
    if c == sep then [] :: r
    else
      match r with
      | [] => [[c]]
      | h :: t => (c :: h) :: t

/-- App.captureFirstFrame (src/types.ts lines 234-247): null when a ref or the
context is missing, otherwise the part of the data URL after the first comma
(JavaScript split on the comma character, piece at index 1, undefined
modeled as none). -/
def captureFirstFrame (env : CaptureEnv) : Option String :=
  if !env.videoPresent || !env.canvasPresent then none
  else if !env.ctxAvailable then none
  else ((splitOnChar ',' (canvasToDataURL env).data).get? 1).map String.mk

/-- The error object carried by a Veo operation (operation.error). -/
structure OpError where
  message : Option String
deriving DecidableEq, Repr

/-- GeneratedVideo.video (src/types.ts lines 11-16). -/
structure VideoRef where
  uri : String
  expirationTime : Option String := none
deriving DecidableEq, Repr

/-- GeneratedVideo (src/types.ts lines 11-16). -/
structure GeneratedVideo where
  video : VideoRef
deriving DecidableEq, Repr

/-- VeoResponse (src/types.ts lines 18-20). -/
structure VeoResponse where
  generatedVideos : Option (List GeneratedVideo)
deriving DecidableEq, Repr

/-- The long-running Veo operation handle as consumed by generateCleanVideo:
done flag, optional error object, optional response. -/
structure VeoOperation where
  done : Bool
  error : Option OpError := none
  response : Option VeoResponse := none
deriving DecidableEq, Repr

/-- The optional chain
(operation.response as VeoResponse)?.generatedVideos?.[0]?.video?.uri
(src/unnamed/part_000 line 144). -/
def VeoOperation.videoUri (op : VeoOperation) : Option String :=
  op.response.bind fun r =>
    (r.generatedVideos.bind fun l => l.head?).map fun gv => gv.video.uri

/-- A remote model-API request issued by the service layer (the polling
re-fetches are recorded separately as poll events). -/
inductive RemoteCall where
  | generateContent (model : String)
  | generateImages (model : String) (prompt : String)
  | generateVideos (model : String) (prompt : String)
deriving DecidableEq, Repr

/-- Environment of a pipeline run: the VideoData fields startProcessing reads,
the host capabilities, the browser capture environment, and the responses of
the opaque remote operations as functions of their request payloads. -/
structure Env where
  previewUrl : Option String
  base64Data : Option String
  mimeType : Option String
  apiKeyPresent : Bool
  apiKey : String
  aistudioPresent : Bool
  hasSelectedKey : Bool
  videoLoadOk : Bool
  capture : CaptureEnv
  analyzeText : String → String → Except String (Option String)
  cleanEditText : String → String → Except String (Option String)
  cleanDescText : String → String → Except String (Option String)
  imagenImages : String → Except String (List String)
  genInit : String → String → Except String VeoOperation
  genRefetch : Nat → Except String VeoOperation

/-- Number of openSelectKey prompts issued by getAiClient (src/unnamed/part_000
lines 5-13): one when window.aistudio exists and no key is selected. -/
def getAiClientKeyCalls (env : Env) : Nat :=
  if env.aistudioPresent && !env.hasSelectedKey then 1 else 0

/-- Observable outcome of one service-layer stage: its result (or thrown
message), the remote requests it issued, and openSelectKey prompts. -/
structure StageOut (α : Type) where
  result : Except String α
  calls : List RemoteCall
  openKeyCalls : Nat

/-- analyzeVideoContent (src/unnamed/part_000 lines 15-40): one generateContent
request to gemini-2.5-flash-latest; the result is response.text with the
fallback "A cinematic video scene." under JavaScript truthiness. -/
def analyzeVideoContent (env : Env) (videoBase64 mimeType : String) : StageOut String :=
  { result := (env.analyzeText videoBase64 mimeType).map
      (fun t => jsOrS t "A cinematic video scene."),
    calls := [.generateContent "gemini-2.5-flash-latest"],
    openKeyCalls := getAiClientKeyCalls env }

/-- The Imagen prompt built by cleanFrame (src/unnamed/part_000 lines 89-94):
the dirty-frame description (fallback "A clean video frame") plus the fixed
quality qualifier. -/
def cleanFramePrompt (t : Option String) : String :=
  jsOrS t "A clean video frame" ++ " high quality, photorealistic, no text, no watermarks, clear 8k."

/-- cleanFrame (src/unnamed/part_000 lines 42-103): a first generateContent
request to gemini-2.5-flash-image whose response is discarded, then a
generateContent description request, then a generateImages request with the
built prompt; the result is the bytes of the first generated image (a missing
first element is the JavaScript TypeError of indexing undefined). -/
def cleanFrame (env : Env) (imageBase64 mimeType : String) : StageOut String :=
  let keyCalls := getAiClientKeyCalls env
  let editCall := RemoteCall.generateContent "gemini-2.5-flash-image"
  match env.cleanEditText imageBase64 mimeType with
  | .error e => { result := .error e, calls := [editCall], openKeyCalls := keyCalls }
  | .ok _ =>
    let descCall := RemoteCall.generateContent "gemini-2.5-flash-latest"
    match env.cleanDescText imageBase64 mimeType with
    | .error e => { result := .error e, calls := [editCall, descCall], openKeyCalls := keyCalls }
    | .ok t =>
      let fullPrompt := cleanFramePrompt t
      let imgCall := RemoteCall.generateImages "imagen-4.0-generate-001" fullPrompt
      match env.imagenImages fullPrompt with
      | .error e =>
        { result := .error e, calls := [editCall, descCall, imgCall], openKeyCalls := keyCalls }
      | .ok imgs =>
        match imgs.head? with
        | none =>
          { result := .error "TypeError: cannot read properties of undefined",
            calls := [editCall, descCall, imgCall], openKeyCalls := keyCalls }
        | some b =>
          { result := .ok b, calls := [editCall, descCall, imgCall], openKeyCalls := keyCalls }

/-- Events of the polling loop of generateCleanVideo, in program order: the
progress callback, the 5000 ms sleep, the getVideosOperation re-fetch (indexed
by how many re-fetches happened before it). -/
inductive PollEvent where
  | progressCb (msg : String)
  | sleep (ms : Nat)
  | refetchReq (idx : Nat)
deriving DecidableEq, Repr

/-- State of the polling loop: current operation handle, number of successful
re-fetches, number of callback invocations, accumulated sleep time, event
trace. -/
structure PollState where
  op : VeoOperation
  refetches : Nat
  callbacks : Nat
  sleepMs : Nat
  events : List PollEvent
deriving DecidableEq, Repr

/-- The polling loop of generateCleanVideo (src/unnamed/part_000 lines
133-138): while the operation is not done, invoke the progress callback,
sleep 5000 ms, re-fetch the operation.  A re-fetch rejection carries the
state reached so far; none means fuel ran out (the source loop is unbounded). -/
def pollAux (refetch : Nat → Except String VeoOperation) :
    Nat → PollState → Option (Except (String × PollState) PollState)
  | fuel, st =>
    if st.op.done then some (.ok st)
    else
      match fuel with
      | 0 => none
      | fuel' + 1 =>
        let ev := st.events ++
          [.progressCb "Rendering video frames...", .sleep 5000, .refetchReq st.refetches]
        match refetch st.refetches with
        | .error e =>
          some (.error (e, { st with callbacks := st.callbacks + 1,
                                     sleepMs := st.sleepMs + 5000, events := ev }))
        | .ok op2 =>
          pollAux refetch fuel'
            { op := op2, refetches := st.refetches + 1, callbacks := st.callbacks + 1,
              sleepMs := st.sleepMs + 5000, events := ev }

/-- The expected event trace of n polling iterations starting at re-fetch
index k: in each 5-second interval, one callback, one sleep, one re-fetch. -/
def pollEventsFor : Nat → Nat → List PollEvent
  | _, 0 => []
  | k, n + 1 =>
    [.progressCb "Rendering video frames...", .sleep 5000, .refetchReq k] ++ pollEventsFor (k + 1) n

/-- The catch handler of generateCleanVideo (src/unnamed/part_000 lines
153-163): when the error message contains "Requested entity was not found" and
window.aistudio exists, prompt key re-selection once and throw the distinct
session-expired message; otherwise rethrow the original error. -/
def veoCatchMsg (env : Env) (e : String) : Except String (Option String) :=
  if strContains e "Requested entity was not found" && env.aistudioPresent then
    .error "API Key session expired. Please try again."
  else
    .error e

/-- Number of openSelectKey prompts issued by the catch handler of
generateCleanVideo for a given error message. -/
def veoCatchKeyCalls (env : Env) (e : String) : Nat :=
  if strContains e "Requested entity was not found" && env.aistudioPresent then 1 else 0

/-- Observable outcome of generateCleanVideo: the returned value (the declared
type is string or null, hence Option String on success), remote requests,
openSelectKey prompts, progress-callback messages in order, and the polling
event trace. -/
structure GenOut where
  result : Except String (Option String)
  calls : List RemoteCall
  openKeyCalls : Nat
  progressMsgs : List String
  pollEvents : List PollEvent
deriving DecidableEq, Repr

/-- The progress-callback messages contained in a polling event trace. -/
def progressOfEvents (evs : List PollEvent) : List String :=
  evs.filterMap fun ev =>
    match ev with
    | .progressCb m => some m
    | _ => none

/-- generateCleanVideo (src/unnamed/part_000 lines 105-164): one
generateVideos request with the prompt extended by the fixed cinematic
qualifier, then the polling loop, then the error-object check, the URI
truthiness check, and on success the URI with the API key appended.  Every
throw inside the try block is routed through the catch handler, modeled by
veoCatchMsg and veoCatchKeyCalls.  The progress
callback is the caller-supplied one (always present here, as in
startProcessing). -/
def generateCleanVideo (env : Env) (startFrameBase64 prompt : String) (fuel : Nat) :
    Option GenOut :=
  let keyCalls := getAiClientKeyCalls env
  let msg1 := "Initializing generation model..."
  let fullPrompt := prompt ++ " cinematic, high quality, consistent motion."
  let genCall := RemoteCall.generateVideos "veo-3.1-fast-generate-preview" fullPrompt
  match env.genInit fullPrompt startFrameBase64 with
  | .error e =>
    some { result := veoCatchMsg env e, calls := [genCall],
           openKeyCalls := keyCalls + veoCatchKeyCalls env e,
           progressMsgs := [msg1], pollEvents := [] }
  | .ok op0 =>
    let msg2 := "Video generation started. This may take a moment..."
    match pollAux env.genRefetch fuel { op := op0, refetches := 0, callbacks := 0,
                                        sleepMs := 0, events := [] } with
    | none => none
    | some (.error (e, st)) =>
      some { result := veoCatchMsg env e, calls := [genCall],
             openKeyCalls := keyCalls + veoCatchKeyCalls env e,
             progressMsgs := msg1 :: msg2 :: progressOfEvents st.events,
             pollEvents := st.events }
    | some (.ok st) =>
      let msgs := msg1 :: msg2 :: progressOfEvents st.events
      match st.op.error with
      | some err =>
        let e := jsOrS err.message "Video generation failed"
        some { result := veoCatchMsg env e, calls := [genCall],
               openKeyCalls := keyCalls + veoCatchKeyCalls env e,
               progressMsgs := msgs, pollEvents := st.events }
      | none =>
        match st.op.videoUri with
        | some u =>
          if u = "" then
            some { result := veoCatchMsg env "No video URI returned", calls := [genCall],
                   openKeyCalls := keyCalls + veoCatchKeyCalls env "No video URI returned",
                   progressMsgs := msgs, pollEvents := st.events }
          else
            some { result := .ok (some (u ++ "&key=" ++ env.apiKey)), calls := [genCall],
                   openKeyCalls := keyCalls, progressMsgs := msgs, pollEvents := st.events }
        | none =>
          some { result := veoCatchMsg env "No video URI returned", calls := [genCall],
                 openKeyCalls := keyCalls + veoCatchKeyCalls env "No video URI returned",
                 progressMsgs := msgs, pollEvents := st.events }

/-- The captured first frame value as used by startProcessing after its
truthiness guard. -/
def firstFrameOf (env : Env) : String :=
  (captureFirstFrame env.capture).getD ""

/-- The expression videoData.base64Data || firstFrameBase64 (src/types.ts
line 274). -/
def dataToAnalyzeOf (env : Env) : String :=
  if jsTruthy env.base64Data then env.base64Data.getD "" else firstFrameOf env

/-- The expression videoData.mimeType || image png (src/types.ts line 275). -/
def mimeToAnalyzeOf (env : Env) : String :=
  if jsTruthy env.mimeType then env.mimeType.getD "" else "image/png"

/-- The analyzing state set at src/types.ts line 259. -/
def analyzingState : ProcessingState :=
  { status := .analyzing, message := "Analyzing video structure...", progress := some 10 }

/-- The cleaning state set at src/types.ts line 280. -/
def cleaningState : ProcessingState :=
  { status := .cleaning_frame, message := "Reconstructing clean keyframes...", progress := some 40 }

/-- The generating state set at src/types.ts line 285. -/
def generatingState : ProcessingState :=
  { status := .generating, message := "Generating logo-free video with Veo...", progress := some 60 }

/-- The completed state set at src/types.ts line 296. -/
def completedState : ProcessingState :=
  { status := .completed, message := "Restoration complete!", progress := some 100 }

/-- The error state set by the catch of startProcessing (src/types.ts lines
301-305): the progress field is omitted there, and an empty underlying message
falls back to "Unknown error occurred". -/
def errorState (e : String) : ProcessingState :=
  { status := .error, message := "Processing failed", progress := none,
    error := some (jsOrStr e "Unknown error occurred") }

/-- The state installed by each generate-stage progress callback (src/types.ts
line 291): previous status and progress kept, message replaced. -/
def cbState (m : String) : ProcessingState :=
  { status := .generating, message := m, progress := some 60 }

/-- The initial ProcessingState of the App component (src/types.ts lines
219-223). -/
def idleState : ProcessingState :=
  { status := .idle, message := "", progress := some 0 }

/-- The state installed by the Try Again button (src/types.ts line 438). -/
def retryResetState : ProcessingState :=
  { status := .idle, message := "", progress := some 0 }

/-- Observable outcome of one startProcessing run: the ProcessingStates set in
order (the initial idle state not included), the result URL if installed, all
remote requests, openSelectKey prompts, and whether the missing-key alert was
shown. -/
structure RunOut where
  states : List ProcessingState
  resultUrl : Option String
  calls : List RemoteCall
  openKeyCalls : Nat
  alerted : Bool
deriving DecidableEq, Repr

/-- App.startProcessing (src/types.ts lines 249-307): guard on previewUrl
truthiness, the API-key presence alert, the metadata wait (divergence if the
load event never fires), frame capture with its truthiness guard, then the
describe, clean-frame and generate stages in sequence, each error caught by
the single catch that installs the error state.  Progress-callback messages
from the generate stage each re-install the generating state with the new
message. -/
def startProcessing (env : Env) (fuel : Nat) : Option RunOut :=
  if !jsTruthy env.previewUrl then
    some { states := [], resultUrl := none, calls := [], openKeyCalls := 0, alerted := false }
  else if !env.apiKeyPresent && !env.aistudioPresent then
    some { states := [], resultUrl := none, calls := [], openKeyCalls := 0, alerted := true }
  else if !env.videoLoadOk then none
  else if !jsTruthy (captureFirstFrame env.capture) then
    some { states := [analyzingState, errorState "Could not capture video frame"],
           resultUrl := none, calls := [], openKeyCalls := 0, alerted := false }
  else
    let a := analyzeVideoContent env (dataToAnalyzeOf env) (mimeToAnalyzeOf env)
    match a.result with
    | .error e =>
      some { states := [analyzingState, errorState e], resultUrl := none,
             calls := a.calls, openKeyCalls := a.openKeyCalls, alerted := false }
    | .ok analysisPrompt =>
      let c := cleanFrame env (firstFrameOf env) "image/png"
      match c.result with
      | .error e =>
        some { states := [analyzingState, cleaningState, errorState e], resultUrl := none,
               calls := a.calls ++ c.calls, openKeyCalls := a.openKeyCalls + c.openKeyCalls,
               alerted := false }
      | .ok cleanedFrame =>
        match generateCleanVideo env cleanedFrame analysisPrompt fuel with
        | none => none
        | some g =>
          let cbStates := g.progressMsgs.map cbState
          let base := [analyzingState, cleaningState, generatingState] ++ cbStates
          let allCalls := a.calls ++ c.calls ++ g.calls
          let keys := a.openKeyCalls + c.openKeyCalls + g.openKeyCalls
          match g.result with
          | .error e =>
            some { states := base ++ [errorState e], resultUrl := none,
                   calls := allCalls, openKeyCalls := keys, alerted := false }
          | .ok videoUrl =>
            if jsTruthy videoUrl then
              some { states := base ++ [completedState], resultUrl := videoUrl,
                     calls := allCalls, openKeyCalls := keys, alerted := false }
            else
              some { states := base, resultUrl := none,
                     calls := allCalls, openKeyCalls := keys, alerted := false }

/-- Position of a status along the enumeration, for forward-transition
statements. -/
def statusRank : Status → Nat
  | .idle => 0
  | .analyzing => 1
  | .cleaning_frame => 2
  | .generating => 3
  | .completed => 4
  | .error => 5

/-- Observed status sequence: consecutive duplicates collapsed. -/
def collapseStatuses : List Status → List Status
  | [] => []
  | [s] => [s]
  | s :: t :: r =>
    if s = t then collapseStatuses (t :: r) else s :: collapseStatuses (t :: r)

/-! Shared concrete environments used by witnesses and counterexamples. -/

/-- A capture environment whose video has zero decoded dimensions while the
canvas, video ref and 2d context are all available. -/
def zeroDimCaptureEnv : CaptureEnv :=
  { videoPresent := true, canvasPresent := true, videoWidth := 0, videoHeight := 0,
    ctxAvailable := true, pngBase64 := fun _ _ => "AAAA" }

/-- A completed Veo operation handle carrying one generated video URI. -/
def demoDoneOp : VeoOperation :=
  { done := true, error := none,
    response := some { generatedVideos := some [⟨⟨"https://v/result?x=1", none⟩⟩] } }

/-- A fully successful run environment: an uploaded file with payload, a
selected key, every remote stage succeeding, and the Veo operation done on its
initial handle. -/
def baseOkEnv : Env :=
  { previewUrl := some "blob:demo", base64Data := some "VID64", mimeType := some "video/mp4",
    apiKeyPresent := true, apiKey := "K", aistudioPresent := false, hasSelectedKey := false,
    videoLoadOk := true,
    capture := { videoPresent := true, canvasPresent := true, videoWidth := 4, videoHeight := 2,
                 ctxAvailable := true, pngBase64 := fun _ _ => "FRAME64" },
    analyzeText := fun _ _ => .ok (some "a red car drives"),
    cleanEditText := fun _ _ => .ok none,
    cleanDescText := fun _ _ => .ok (some "a red car on a road"),
    imagenImages := fun _ => .ok ["CLEANIMG"],
    genInit := fun _ _ => .ok demoDoneOp,
    genRefetch := fun _ => .error "unused" }

/-! Helper lemmas. -/

/-- The fallback form x or d is never empty when d is not. -/
theorem jsOrS_ne_empty (t : Option String) (d : String) (hd : d ≠ "") : jsOrS t d ≠ "" := by
  cases t with
  | none => exact hd
  | some s =>
    show (if s = "" then d else s) ≠ ""
    by_cases hs : s = ""
    · rw [if_pos hs]; exact hd
    · rw [if_neg hs]; exact hs

/-- A successful describe result is never the empty string: response.text
falls back to the fixed non-empty scene description. -/
theorem analyzeVideoContent_ne_empty (env : Env) (a m d : String)
    (h : (analyzeVideoContent env a m).result = .ok d) : d ≠ "" := by
  unfold analyzeVideoContent at h
  simp only at h
  cases hx : env.analyzeText a m with
  | error e => rw [hx] at h; simp [Except.map] at h
  | ok t =>
    rw [hx] at h
    simp [Except.map] at h
    rw [← h]
    exact jsOrS_ne_empty t _ (by decide)

/-- The catch handler never produces a success value. -/
theorem veoCatchMsg_no_ok (env : Env) (e : String) (v : Option String) :
    veoCatchMsg env e ≠ .ok v := by
  unfold veoCatchMsg
  split <;> simp

/-! C8 — link validation in the Uploader. -/

/-- C8 counterexample: the empty pasted link does not match the video-file
pattern, yet handleLinkSubmit returns early showing no warning (and producing
no record), contradicting the claim that every non-matching link is rejected
with a user-facing warning. -/
theorem C8_counterexample :
    linkMatchesVideoExt "" = false ∧
    handleLinkSubmit "" = { selected := none, alerted := false } := by
  decide

/-- C8 (amended): for every non-empty pasted link, a link whose suffix does
not match the .mp4/.webm/.mov pattern (case-insensitive) is rejected with the
user-facing warning and produces no VideoRecord, while a matching link
produces a VideoRecord whose external URL and preview URL are the pasted link
and whose file payload is null.  The empty input is ignored silently. -/
theorem C8_link_validation (s : String) (hne : s ≠ "") :
    (linkMatchesVideoExt s = false →
      handleLinkSubmit s = { selected := none, alerted := true }) ∧
    (linkMatchesVideoExt s = true →
      handleLinkSubmit s =
        { selected := some { file := none, url := some s, previewUrl := some s,
                             base64Data := none, mimeType := none },
          alerted := false }) := by
  constructor
  · intro hm
    unfold handleLinkSubmit
    simp [hne, hm]
  · intro hm
    unfold handleLinkSubmit
    simp [hne, hm]

/-- C8 witness: the amended statement evaluated on a matching and a
non-matching concrete link. -/
theorem C8_link_validation_witness :
    ((linkMatchesVideoExt "https://host/page.html" = false →
        handleLinkSubmit "https://host/page.html" = { selected := none, alerted := true }) ∧
      (linkMatchesVideoExt "https://host/page.html" = true →
        handleLinkSubmit "https://host/page.html" =
          { selected := some { file := none, url := some "https://host/page.html",
                               previewUrl := some "https://host/page.html",
                               base64Data := none, mimeType := none },
            alerted := false })) ∧
    ((linkMatchesVideoExt "https://host/clip.MP4" = false →
        handleLinkSubmit "https://host/clip.MP4" = { selected := none, alerted := true }) ∧
      (linkMatchesVideoExt "https://host/clip.MP4" = true →
        handleLinkSubmit "https://host/clip.MP4" =
          { selected := some { file := none, url := some "https://host/clip.MP4",
                               previewUrl := some "https://host/clip.MP4",
                               base64Data := none, mimeType := none },
            alerted := false })) :=
  ⟨C8_link_validation "https://host/page.html" (by decide),
   C8_link_validation "https://host/clip.MP4" (by decide)⟩

/-! C2 — capture on a video with zero decoded dimensions. -/

/-- C2 counterexample: with both decoded dimensions zero and all drawing
surfaces available, captureFirstFrame returns the empty string payload (the
canvas yields the data URL "data:," and splitting on the comma leaves ""),
not null as the claim states. -/
theorem C2_counterexample :
    zeroDimCaptureEnv.videoWidth = 0 ∧ zeroDimCaptureEnv.videoHeight = 0 ∧
    captureFirstFrame zeroDimCaptureEnv = some "" ∧
    captureFirstFrame zeroDimCaptureEnv ≠ none := by
  refine ⟨rfl, rfl, by decide, by decide⟩

/-- C2 (amended): for every video element with zero decoded dimensions, the
frame-capture operation returns either null (a missing ref or context) or the
empty-string payload — a falsy value the orchestrator treats as no frame —
never a malformed image payload. -/
theorem C2_zero_dims_capture (env : CaptureEnv)
    (hw : env.videoWidth = 0) (hh : env.videoHeight = 0) :
    captureFirstFrame env = none ∨ captureFirstFrame env = some "" := by
  unfold captureFirstFrame canvasToDataURL
  rw [hw, hh]
  by_cases hv : env.videoPresent <;> by_cases hc : env.canvasPresent <;>
    by_cases hctx : env.ctxAvailable <;> simp [hv, hc, hctx] <;> decide

/-- C2 witness: the amended statement evaluated at the concrete
zero-dimension environment. -/
theorem C2_zero_dims_capture_witness :
    captureFirstFrame zeroDimCaptureEnv = none ∨
    captureFirstFrame zeroDimCaptureEnv = some "" :=
  C2_zero_dims_capture zeroDimCaptureEnv rfl rfl

/-! C5 — the clean-frame stage. -/

/-- C5 counterexample: on a run where every remote call succeeds, cleanFrame
issues three remote requests, not exactly two: an initial image-edit
generateContent request to gemini-2.5-flash-image whose response is discarded,
then the description request and the text-to-image request. -/
theorem C5_counterexample :
    (cleanFrame baseOkEnv "FRAME64" "image/png").calls.length = 3 ∧
    ¬ (cleanFrame baseOkEnv "FRAME64" "image/png").calls.length = 2 ∧
    (cleanFrame baseOkEnv "FRAME64" "image/png").calls =
      [.generateContent "gemini-2.5-flash-image",
       .generateContent "gemini-2.5-flash-latest",
       .generateImages "imagen-4.0-generate-001"
         (cleanFramePrompt (some "a red car on a road"))] := by
  refine ⟨by decide, by decide, by decide⟩

/-- C5 (amended): the clean-frame stage issues exactly three remote requests:
first an image-edit request whose response is discarded, then (a) the request
for an extremely detailed description of the captured frame ignoring
watermarks, then (b) the text-to-image request synthesizing one image from
that description plus the fixed quality/aspect-ratio qualifier; the stage
returns the bytes of that image, so the reconstruction is determined by the last
two steps alone. -/
theorem C5_cleanFrame_calls (env : Env) (img mt : String) (et t : Option String)
    (imgs : List String) (b : String)
    (h1 : env.cleanEditText img mt = .ok et)
    (h2 : env.cleanDescText img mt = .ok t)
    (h3 : env.imagenImages (cleanFramePrompt t) = .ok imgs)
    (h4 : imgs.head? = some b) :
    cleanFrame env img mt =
      { result := .ok b,
        calls := [.generateContent "gemini-2.5-flash-image",
                  .generateContent "gemini-2.5-flash-latest",
                  .generateImages "imagen-4.0-generate-001" (cleanFramePrompt t)],
        openKeyCalls := getAiClientKeyCalls env } := by
  unfold cleanFrame
  simp only [h1, h2, h3, h4]

/-- C5 witness: the amended statement evaluated on the concrete successful
environment. -/
theorem C5_cleanFrame_calls_witness :
    cleanFrame baseOkEnv "FRAME64" "image/png" =
      { result := .ok "CLEANIMG",
        calls := [.generateContent "gemini-2.5-flash-image",
                  .generateContent "gemini-2.5-flash-latest",
                  .generateImages "imagen-4.0-generate-001"
                    (cleanFramePrompt (some "a red car on a road"))],
        openKeyCalls := getAiClientKeyCalls baseOkEnv } :=
  C5_cleanFrame_calls baseOkEnv "FRAME64" "image/png" none (some "a red car on a road")
    ["CLEANIMG"] "CLEANIMG" rfl rfl rfl rfl

/-! C3 and C10 — the entity-not-found credential special case. -/

/-- An environment whose video-generation call rejects with the
entity-not-found message while a key had been selected and window.aistudio is
available. -/
def entityErrEnv : Env :=
  { baseOkEnv with
    aistudioPresent := true, hasSelectedKey := true,
    genInit := fun _ _ => .error "Requested entity was not found." }

/-- An environment whose video-generation call rejects with the
entity-not-found message while window.aistudio is absent. -/
def entityErrNoHostEnv : Env :=
  { baseOkEnv with
    aistudioPresent := false, hasSelectedKey := true,
    genInit := fun _ _ => .error "Requested entity was not found." }

/-- C3: when the remote video-generation call rejects with a message
containing the entity-not-found condition, a key having been selected and the
host credential-selection capability being available, generateCleanVideo
prompts credential re-selection exactly once, issues the generateVideos
request exactly once (no retry, no resumption), and fails with the distinct
session-expired please-try-again message, which differs from the original
remote error message. -/
theorem C3_entity_not_found_reselect (env : Env) (f p e : String) (fuel : Nat)
    (ha : env.aistudioPresent = true)
    (hk : env.hasSelectedKey = true)
    (hinit : env.genInit (p ++ " cinematic, high quality, consistent motion.") f = .error e)
    (hsub : strContains e "Requested entity was not found" = true) :
    generateCleanVideo env f p fuel =
      some { result := .error "API Key session expired. Please try again.",
             calls := [.generateVideos "veo-3.1-fast-generate-preview"
                         (p ++ " cinematic, high quality, consistent motion.")],
             openKeyCalls := 1,
             progressMsgs := ["Initializing generation model..."],
             pollEvents := [] } ∧
    e ≠ "API Key session expired. Please try again." := by
  have hne : e ≠ "API Key session expired. Please try again." := by
    intro h
    rw [h] at hsub
    have : strContains "API Key session expired. Please try again."
        "Requested entity was not found" = false := by decide
    rw [this] at hsub
    cases hsub
  refine ⟨?_, hne⟩
  unfold generateCleanVideo
  simp only [hinit]
  unfold veoCatchMsg veoCatchKeyCalls getAiClientKeyCalls
  simp [ha, hk, hsub]

/-- C3 witness: the statement evaluated on the concrete
entity-not-found environment. -/
theorem C3_entity_not_found_reselect_witness :
    (generateCleanVideo entityErrEnv "F" "P" 0 =
      some { result := .error "API Key session expired. Please try again.",
             calls := [.generateVideos "veo-3.1-fast-generate-preview"
                         ("P" ++ " cinematic, high quality, consistent motion.")],
             openKeyCalls := 1,
             progressMsgs := ["Initializing generation model..."],
             pollEvents := [] }) ∧
    "Requested entity was not found." ≠ "API Key session expired. Please try again." :=
  C3_entity_not_found_reselect entityErrEnv "F" "P" "Requested entity was not found." 0
    rfl rfl rfl (by decide)

/-- C10: when the remote video-generation call rejects with a message
containing the entity-not-found condition but window.aistudio is absent,
generateCleanVideo performs no credential re-selection and rethrows the
original error unmodified, with the generateVideos request issued exactly
once. -/
theorem C10_no_host_rethrows (env : Env) (f p e : String) (fuel : Nat)
    (ha : env.aistudioPresent = false)
    (hinit : env.genInit (p ++ " cinematic, high quality, consistent motion.") f = .error e)
    (hsub : strContains e "Requested entity was not found" = true) :
    generateCleanVideo env f p fuel =
      some { result := .error e,
             calls := [.generateVideos "veo-3.1-fast-generate-preview"
                         (p ++ " cinematic, high quality, consistent motion.")],
             openKeyCalls := 0,
             progressMsgs := ["Initializing generation model..."],
             pollEvents := [] } := by
  unfold generateCleanVideo
  simp only [hinit]
  unfold veoCatchMsg veoCatchKeyCalls getAiClientKeyCalls
  simp [ha]

/-- C10 witness: the statement evaluated on the concrete environment without
the host capability. -/
theorem C10_no_host_rethrows_witness :
    generateCleanVideo entityErrNoHostEnv "F" "P" 0 =
      some { result := .error "Requested entity was not found.",
             calls := [.generateVideos "veo-3.1-fast-generate-preview"
                         ("P" ++ " cinematic, high quality, consistent motion.")],
             openKeyCalls := 0,
             progressMsgs := ["Initializing generation model..."],
             pollEvents := [] } :=
  C10_no_host_rethrows entityErrNoHostEnv "F" "P" "Requested entity was not found." 0
    rfl rfl (by decide)

/-! C1 — the polling loop. -/

/-- Main induction for the polling loop: starting from the handle obtained
after k re-fetches (with accumulators c, s, ev), if the first done handle in
the remaining sequence is n steps away and the fuel covers those n iterations,
the loop performs exactly n further iterations — each one callback, one
5000 ms sleep and one re-fetch — and stops on the done handle. -/
theorem pollAux_run (ops : Nat → VeoOperation) :
    ∀ (n k c s : Nat) (ev : List PollEvent) (fuel : Nat),
      (ops (k + n)).done = true →
      (∀ j, j < n → (ops (k + j)).done = false) →
      n ≤ fuel →
      pollAux (fun j => .ok (ops (j + 1))) fuel
          { op := ops k, refetches := k, callbacks := c, sleepMs := s, events := ev } =
        some (.ok { op := ops (k + n), refetches := k + n, callbacks := c + n,
                    sleepMs := s + 5000 * n, events := ev ++ pollEventsFor k n }) := by
  intro n
  induction n with
  | zero =>
    intro k c s ev fuel hdone _ _
    rw [pollAux.eq_def]
    simp only [Nat.add_zero] at hdone
    simp [hdone, pollEventsFor]
  | succ n ih =>
    intro k c s ev fuel hdone hprev hfuel
    have hk : (ops k).done = false := by
      have := hprev 0 (Nat.succ_pos n)
      simpa using this
    cases fuel with
    | zero => exact absurd hfuel (by omega)
    | succ f =>
      rw [pollAux.eq_def]
      simp only [hk]
      have step := ih (k + 1) (c + 1) (s + 5000)
        (ev ++ [.progressCb "Rendering video frames...", .sleep 5000, .refetchReq k]) f
        (by rw [show k + 1 + n = k + (n + 1) by omega]; exact hdone)
        (fun j hj => by
          have := hprev (j + 1) (by omega)
          rw [show k + 1 + j = k + (j + 1) by omega]
          exact this)
        (by omega)
      simp only [Bool.false_eq_true, if_false]
      rw [step]
      have harith1 : k + 1 + n = k + (n + 1) := by omega
      have harith2 : c + 1 + n = c + (n + 1) := by omega
      have harith3 : s + 5000 + 5000 * n = s + 5000 * (n + 1) := by ring
      have hev : (ev ++ [PollEvent.progressCb "Rendering video frames...",
                    .sleep 5000, .refetchReq k]) ++ pollEventsFor (k + 1) n =
          ev ++ pollEventsFor k (n + 1) := by
        rw [List.append_assoc]
        rfl
      rw [harith1, harith2, harith3, hev]

/-- C1: in the generate-stage polling loop, if the remote handle sequence
first reports done at index n (index 0 being the handle returned by
generateVideos) and every re-fetch succeeds, the loop invokes the
caller-supplied progress callback before each poll, sleeps 5000 ms and issues
exactly one status re-fetch per elapsed interval (n re-fetches, n callbacks,
5000 * n ms total), terminates immediately on the iteration in which the
handle reports done, and never terminates on a handle reporting not done: the
event trace is exactly n repetitions of callback-sleep-refetch and the final
handle is the first done one. -/
theorem C1_poll_loop (ops : Nat → VeoOperation) (n fuel : Nat)
    (hdone : (ops n).done = true)
    (hprev : ∀ j, j < n → (ops j).done = false)
    (hfuel : n ≤ fuel) :
    pollAux (fun j => .ok (ops (j + 1))) fuel
        { op := ops 0, refetches := 0, callbacks := 0, sleepMs := 0, events := [] } =
      some (.ok { op := ops n, refetches := n, callbacks := n, sleepMs := 5000 * n,
                  events := pollEventsFor 0 n }) := by
  have := pollAux_run ops n 0 0 0 [] fuel (by simpa) (fun j hj => by simpa using hprev j hj) hfuel
  simpa using this

/-- The handle sequence used by the C1 witness: not done for the first two
fetches, done from the third on. -/
def demoOpSeq (j : Nat) : VeoOperation :=
  if j < 2 then { done := false } else demoDoneOp

/-- C1 witness: the polling loop run on a concrete handle sequence that
becomes done at index 2, with fuel 3: two callback-sleep-refetch iterations,
10000 ms of sleep, stopping on the done handle. -/
theorem C1_poll_loop_witness :
    pollAux (fun j => .ok (demoOpSeq (j + 1))) 3
        { op := demoOpSeq 0, refetches := 0, callbacks := 0, sleepMs := 0, events := [] } =
      some (.ok { op := demoOpSeq 2, refetches := 2, callbacks := 2, sleepMs := 5000 * 2,
                  events := pollEventsFor 0 2 }) :=
  C1_poll_loop demoOpSeq 2 3 (by decide) (by decide) (by decide)

/-! C9 — generateCleanVideo never returns null. -/

/-- The generated URL always contains the key separator, hence is never
empty. -/
theorem append_key_ne_empty (u k : String) : u ++ "&key=" ++ k ≠ "" := by
  intro h
  have hlen : (u ++ "&key=" ++ k).length = 0 := by rw [h]; rfl
  rw [String.length_append, String.length_append] at hlen
  have h5 : ("&key=" : String).length = 5 := rfl
  omega

/-- Every normal return of generateCleanVideo is the non-empty result URI
with the access credential appended: the declared null is unreachable. -/
theorem generateCleanVideo_ok_shape (env : Env) (f p : String) (fuel : Nat) (g : GenOut)
    (v : Option String)
    (hg : generateCleanVideo env f p fuel = some g)
    (hok : g.result = .ok v) :
    ∃ u, v = some (u ++ "&key=" ++ env.apiKey) ∧ u ≠ "" := by
  unfold generateCleanVideo at hg
  dsimp only at hg
  split at hg
  · injection hg with hg'
    rw [← hg'] at hok
    exact absurd hok (veoCatchMsg_no_ok env _ v)
  · split at hg
    · exact Option.noConfusion hg
    · injection hg with hg'
      rw [← hg'] at hok
      exact absurd hok (veoCatchMsg_no_ok env _ v)
    · split at hg
      · injection hg with hg'
        rw [← hg'] at hok
        exact absurd hok (veoCatchMsg_no_ok env _ v)
      · split at hg
        · split at hg
          · injection hg with hg'
            rw [← hg'] at hok
            dsimp only at hok
            exact absurd hok (veoCatchMsg_no_ok env _ v)
          · injection hg with hg'
            rw [← hg'] at hok
            injection hok with hok'
            next u _ hu =>
              exact ⟨u, hok'.symm, hu⟩
        · injection hg with hg'
          rw [← hg'] at hok
          dsimp only at hok
          exact absurd hok (veoCatchMsg_no_ok env _ v)

/-- C9: generateCleanVideo never returns null on a normal return — the value
is always the remote result URI with the access credential appended, hence
truthy — and consequently the truthiness guard of the orchestrator is satisfied:
the run installs the result URL and ends in the completed state with progress
100, never stuck in generating after a normal return of the generate stage. -/
theorem C9_generate_not_null (env : Env) (fuel : Nat) (d b : String) (g : GenOut)
    (v : Option String) (out : RunOut)
    (hp : jsTruthy env.previewUrl = true)
    (hk : env.apiKeyPresent = true)
    (hl : env.videoLoadOk = true)
    (hc : jsTruthy (captureFirstFrame env.capture) = true)
    (hd : (analyzeVideoContent env (dataToAnalyzeOf env) (mimeToAnalyzeOf env)).result = .ok d)
    (hb : (cleanFrame env (firstFrameOf env) "image/png").result = .ok b)
    (hg : generateCleanVideo env b d fuel = some g)
    (hok : g.result = .ok v)
    (hrun : startProcessing env fuel = some out) :
    ∃ u, v = some u ∧ u ≠ "" ∧ out.resultUrl = some u ∧
      out.states.getLast? = some completedState := by
  obtain ⟨u0, hv, _⟩ := generateCleanVideo_ok_shape env b d fuel g v hg hok
  have hne : u0 ++ "&key=" ++ env.apiKey ≠ "" := append_key_ne_empty u0 env.apiKey
  have htr : jsTruthy v = true := by
    rw [hv]
    simpa [jsTruthy] using hne
  unfold startProcessing at hrun
  simp only [hp, hk, hl, hc, hd, hb, hg, hok, htr, Bool.not_true, Bool.false_and,
    Bool.and_self, if_false, ite_false, Bool.false_eq_true] at hrun
  injection hrun with hrun'
  refine ⟨u0 ++ "&key=" ++ env.apiKey, hv, hne, ?_, ?_⟩
  · rw [← hrun']
    exact hv
  · rw [← hrun']
    exact List.getLast?_concat _

/-- The concrete generate-stage outcome of the fully successful
environment. -/
def happyGenOut : GenOut :=
  { result := .ok (some "https://v/result?x=1&key=K"),
    calls := [.generateVideos "veo-3.1-fast-generate-preview"
                "a red car drives cinematic, high quality, consistent motion."],
    openKeyCalls := 0,
    progressMsgs := ["Initializing generation model...",
                     "Video generation started. This may take a moment..."],
    pollEvents := [] }

/-- The concrete run outcome of the fully successful environment. -/
def happyRunOut : RunOut :=
  { states := [analyzingState, cleaningState, generatingState,
               { status := .generating, message := "Initializing generation model...",
                 progress := some 60 },
               { status := .generating,
                 message := "Video generation started. This may take a moment...",
                 progress := some 60 },
               completedState],
    resultUrl := some "https://v/result?x=1&key=K",
    calls := [.generateContent "gemini-2.5-flash-latest",
              .generateContent "gemini-2.5-flash-image",
              .generateContent "gemini-2.5-flash-latest",
              .generateImages "imagen-4.0-generate-001"
                "a red car on a road high quality, photorealistic, no text, no watermarks, clear 8k.",
              .generateVideos "veo-3.1-fast-generate-preview"
                "a red car drives cinematic, high quality, consistent motion."],
    openKeyCalls := 0,
    alerted := false }

/-- C9 witness: the statement evaluated on the concrete fully successful
environment. -/
theorem C9_generate_not_null_witness :
    ∃ u, (some "https://v/result?x=1&key=K" : Option String) = some u ∧ u ≠ "" ∧
      happyRunOut.resultUrl = some u ∧
      happyRunOut.states.getLast? = some completedState :=
  C9_generate_not_null baseOkEnv 1 "a red car drives" "CLEANIMG" happyGenOut
    (some "https://v/result?x=1&key=K") happyRunOut
    rfl rfl rfl rfl rfl rfl rfl rfl rfl

/-! C6 — generating status requires the earlier artifacts. -/

/-- C6: in every run, the generating status appears in the state trace only
if the describe stage already returned a non-empty description and the
clean-frame stage already returned its image payload (both stages precede the
generating transition in the orchestration). -/
theorem C6_generating_needs_artifacts (env : Env) (fuel : Nat) (out : RunOut)
    (hrun : startProcessing env fuel = some out)
    (hgen : Status.generating ∈ out.states.map ProcessingState.status) :
    ∃ d, (analyzeVideoContent env (dataToAnalyzeOf env) (mimeToAnalyzeOf env)).result = .ok d ∧
      d ≠ "" ∧
      ∃ b, (cleanFrame env (firstFrameOf env) "image/png").result = .ok b := by
  unfold startProcessing at hrun
  dsimp only at hrun
  split at hrun
  · injection hrun with h
    rw [← h] at hgen
    simp at hgen
  · split at hrun
    · injection hrun with h
      rw [← h] at hgen
      simp at hgen
    · split at hrun
      · exact Option.noConfusion hrun
      · split at hrun
        · injection hrun with h
          rw [← h] at hgen
          simp [analyzingState, errorState] at hgen
        · split at hrun
          · injection hrun with h
            rw [← h] at hgen
            simp [analyzingState, errorState] at hgen
          · rename_i d heqd
            split at hrun
            · injection hrun with h
              rw [← h] at hgen
              simp [analyzingState, cleaningState, errorState] at hgen
            · rename_i b heqb
              split at hrun
              · exact Option.noConfusion hrun
              · exact ⟨d, heqd, analyzeVideoContent_ne_empty env _ _ d heqd, b, heqb⟩

/-- C6 witness: the statement evaluated on the concrete fully successful
run, whose trace does reach the generating status. -/
theorem C6_generating_needs_artifacts_witness :
    ∃ d, (analyzeVideoContent baseOkEnv (dataToAnalyzeOf baseOkEnv)
            (mimeToAnalyzeOf baseOkEnv)).result = .ok d ∧
      d ≠ "" ∧
      ∃ b, (cleanFrame baseOkEnv (firstFrameOf baseOkEnv) "image/png").result = .ok b :=
  C6_generating_needs_artifacts baseOkEnv 1 happyRunOut rfl (by decide)

/-! C4 — stage failures are terminal, unretried, and propagated. -/

/-- Predicate selecting video-generation requests among remote calls. -/
def isGenVideosCall : RemoteCall → Bool
  | .generateVideos _ _ => true
  | _ => false

/-- The clean-frame stage issues no video-generation request. -/
theorem cleanFrame_no_generateVideos (env : Env) (img mt m p : String) :
    RemoteCall.generateVideos m p ∉ (cleanFrame env img mt).calls := by
  unfold cleanFrame
  dsimp only
  split
  · simp
  · split
    · simp
    · split
      · simp
      · split
        · simp
        · simp

/-- No remote call recorded by the clean-frame stage is a video-generation
request. -/
theorem cleanFrame_filter_no_videos (env : Env) (img mt : String) :
    (cleanFrame env img mt).calls.filter isGenVideosCall = [] := by
  unfold cleanFrame
  dsimp only
  split
  · rfl
  · split
    · rfl
    · split
      · rfl
      · split
        · rfl
        · rfl

/-- Every completed generate stage records exactly the one generateVideos
request — the stage is never retried. -/
theorem generateCleanVideo_calls (env : Env) (f p : String) (fuel : Nat) (g : GenOut)
    (hg : generateCleanVideo env f p fuel = some g) :
    g.calls = [.generateVideos "veo-3.1-fast-generate-preview"
                 (p ++ " cinematic, high quality, consistent motion.")] := by
  unfold generateCleanVideo at hg
  dsimp only at hg
  split at hg
  · injection hg with h
    exact h ▸ rfl
  · split at hg
    · exact Option.noConfusion hg
    · injection hg with h
      exact h ▸ rfl
    · split at hg
      · injection hg with h
        exact h ▸ rfl
      · split at hg
        · split at hg
          · injection hg with h
            exact h ▸ rfl
          · injection hg with h
            exact h ▸ rfl
        · injection hg with h
          exact h ▸ rfl

/-- A non-empty underlying message is propagated verbatim into the error
state installed by the catch of startProcessing. -/
theorem errorState_error_verbatim (e : String) (he : e ≠ "") :
    (errorState e).error = some e := by
  unfold errorState jsOrStr
  simp [he]

/-- C4 (amended): any error raised by the describe, clean-frame or generate
stage is terminal for the run: the pipeline status is set to the error state
with the underlying non-empty message propagated verbatim (an empty message is
replaced by the fixed unknown-error text, forcing the amendment), the failing
stage is not retried, and no subsequent stage is attempted — a describe-stage
failure leaves exactly the single describe request and no clean-frame or
generate request; a clean-frame failure leaves no generateVideos request; a
generate failure leaves exactly one generateVideos request. -/
theorem C4_stage_failure (env : Env) (fuel : Nat)
    (hp : jsTruthy env.previewUrl = true)
    (hk : env.apiKeyPresent = true)
    (hl : env.videoLoadOk = true)
    (hc : jsTruthy (captureFirstFrame env.capture) = true) :
    (∀ e, e ≠ "" →
      (analyzeVideoContent env (dataToAnalyzeOf env) (mimeToAnalyzeOf env)).result = .error e →
      startProcessing env fuel =
        some { states := [analyzingState, errorState e], resultUrl := none,
               calls := [.generateContent "gemini-2.5-flash-latest"],
               openKeyCalls := getAiClientKeyCalls env, alerted := false } ∧
      (errorState e).status = .error ∧ (errorState e).error = some e) ∧
    (∀ d e, e ≠ "" →
      (analyzeVideoContent env (dataToAnalyzeOf env) (mimeToAnalyzeOf env)).result = .ok d →
      (cleanFrame env (firstFrameOf env) "image/png").result = .error e →
      startProcessing env fuel =
        some { states := [analyzingState, cleaningState, errorState e], resultUrl := none,
               calls := .generateContent "gemini-2.5-flash-latest" ::
                 (cleanFrame env (firstFrameOf env) "image/png").calls,
               openKeyCalls := getAiClientKeyCalls env +
                 (cleanFrame env (firstFrameOf env) "image/png").openKeyCalls,
               alerted := false } ∧
      (∀ m p, RemoteCall.generateVideos m p ∉
        (RemoteCall.generateContent "gemini-2.5-flash-latest" ::
          (cleanFrame env (firstFrameOf env) "image/png").calls)) ∧
      (errorState e).error = some e) ∧
    (∀ d b g e, e ≠ "" →
      (analyzeVideoContent env (dataToAnalyzeOf env) (mimeToAnalyzeOf env)).result = .ok d →
      (cleanFrame env (firstFrameOf env) "image/png").result = .ok b →
      generateCleanVideo env b d fuel = some g →
      g.result = .error e →
      ∃ out, startProcessing env fuel = some out ∧
        out.states.getLast? = some (errorState e) ∧
        (errorState e).error = some e ∧
        (out.calls.filter isGenVideosCall).length = 1) := by
  refine ⟨?_, ?_, ?_⟩
  · intro e he herr
    refine ⟨?_, rfl, errorState_error_verbatim e he⟩
    unfold startProcessing
    simp only [hp, hk, hl, hc, herr, Bool.not_true, Bool.false_and, Bool.false_eq_true,
      if_false, ite_false]
    rfl
  · intro d e he hd hcl
    refine ⟨?_, ?_, errorState_error_verbatim e he⟩
    · unfold startProcessing
      simp only [hp, hk, hl, hc, hd, hcl, Bool.not_true, Bool.false_and, Bool.false_eq_true,
        if_false, ite_false]
      rfl
    · intro m p hmem
      rcases List.mem_cons.mp hmem with h | h
      · exact RemoteCall.noConfusion h
      · exact cleanFrame_no_generateVideos env _ _ m p h
  · intro d b g e he hd hb hg hge
    refine ⟨{ states := ([analyzingState, cleaningState, generatingState] ++
                g.progressMsgs.map cbState) ++
                [errorState e],
              resultUrl := none,
              calls := (analyzeVideoContent env (dataToAnalyzeOf env)
                  (mimeToAnalyzeOf env)).calls ++
                (cleanFrame env (firstFrameOf env) "image/png").calls ++ g.calls,
              openKeyCalls := (analyzeVideoContent env (dataToAnalyzeOf env)
                  (mimeToAnalyzeOf env)).openKeyCalls +
                (cleanFrame env (firstFrameOf env) "image/png").openKeyCalls + g.openKeyCalls,
              alerted := false }, ?_, ?_, errorState_error_verbatim e he, ?_⟩
    · unfold startProcessing
      simp only [hp, hk, hl, hc, hd, hb, hg, hge, Bool.not_true, Bool.false_and,
        Bool.false_eq_true, if_false, ite_false]
    · exact List.getLast?_concat _
    · dsimp only
      rw [generateCleanVideo_calls env b d fuel g hg]
      rw [List.filter_append, List.filter_append, cleanFrame_filter_no_videos]
      rfl

/-- An environment whose describe stage rejects with an empty error
message. -/
def emptyMsgEnv : Env :=
  { baseOkEnv with analyzeText := fun _ _ => .error "" }

/-- C4 counterexample: a describe-stage rejection whose message is the empty
string is not propagated verbatim — the failure message of the run becomes the
fixed unknown-error text instead of the underlying empty message. -/
theorem C4_counterexample :
    (analyzeVideoContent emptyMsgEnv (dataToAnalyzeOf emptyMsgEnv)
        (mimeToAnalyzeOf emptyMsgEnv)).result = .error "" ∧
    startProcessing emptyMsgEnv 1 =
      some { states := [analyzingState,
               { status := .error, message := "Processing failed", progress := none,
                 error := some "Unknown error occurred" }],
             resultUrl := none, calls := [.generateContent "gemini-2.5-flash-latest"],
             openKeyCalls := 0, alerted := false } ∧
    (some "Unknown error occurred" : Option String) ≠ some "" := by
  refine ⟨rfl, by decide, by decide⟩

/-- An environment whose describe stage rejects with a non-empty network
error message. -/
def analyzeErrEnv : Env :=
  { baseOkEnv with analyzeText := fun _ _ => .error "network failure" }

/-- C4 witness: the amended statement applied to a concrete run whose
describe stage rejects with a non-empty message — the run fails with that
message verbatim and makes no clean-frame or generate request. -/
theorem C4_stage_failure_witness :
    startProcessing analyzeErrEnv 1 =
      some { states := [analyzingState, errorState "network failure"], resultUrl := none,
             calls := [.generateContent "gemini-2.5-flash-latest"],
             openKeyCalls := getAiClientKeyCalls analyzeErrEnv, alerted := false } ∧
    (errorState "network failure").status = .error ∧
    (errorState "network failure").error = some "network failure" :=
  (C4_stage_failure analyzeErrEnv 1 rfl rfl rfl rfl).1 "network failure" (by decide) rfl

/-! C7 — the happy-path status and progress sequence. -/

/-- Collapsing keeps a head distinct from its successor. -/
theorem collapse_cons_ne (s t : Status) (r : List Status) (h : ¬ s = t) :
    collapseStatuses (s :: t :: r) = s :: collapseStatuses (t :: r) := by
  simp only [collapseStatuses]
  simp [h]

/-- Collapsing merges equal consecutive heads. -/
theorem collapse_cons_same (s : Status) (r : List Status) :
    collapseStatuses (s :: s :: r) = collapseStatuses (s :: r) := by
  simp [collapseStatuses]

/-- The generating block produced by the progress callbacks collapses to a
single generating entry before completed. -/
theorem collapse_generating_block (msgs : List String) :
    collapseStatuses (Status.generating ::
      ((msgs.map fun _ => Status.generating) ++ [Status.completed])) =
    [Status.generating, Status.completed] := by
  induction msgs with
  | nil => rfl
  | cons m ms ih =>
    simp only [List.map_cons, List.cons_append]
    rw [collapse_cons_same]
    exact ih

/-- The progress values of the generating block are non-decreasing up to the
final 100. -/
theorem chain_le_block (msgs : List String) :
    List.Chain' (fun a b => a ≤ b)
      ((60 : Nat) :: ((msgs.map fun _ => (60 : Nat)) ++ [100])) := by
  induction msgs with
  | nil =>
    rw [List.map_nil, List.nil_append, List.chain'_cons]
    exact ⟨by omega, List.chain'_singleton _⟩
  | cons m ms ih =>
    simp only [List.map_cons, List.cons_append]
    rw [List.chain'_cons]
    exact ⟨by omega, ih⟩

/-- Each callback state carries progress 60. -/
theorem filterMap_progress_block (msgs : List String) :
    (msgs.map cbState).filterMap ProcessingState.progress =
      msgs.map fun _ => (60 : Nat) := by
  induction msgs with
  | nil => rfl
  | cons m ms ih => simp only [List.map_cons, List.filterMap_cons, cbState, ih]

/-- Each callback state carries the generating status. -/
theorem map_status_block (msgs : List String) :
    (msgs.map cbState).map ProcessingState.status =
      msgs.map fun _ => Status.generating := by
  induction msgs with
  | nil => rfl
  | cons m ms ih =>
    simp only [List.map_cons]
    rw [ih]
    rfl

/-- C7: in every run in which all stages succeed, the observed status
sequence (consecutive duplicates collapsed, starting from the initial idle
state) is exactly idle, analyzing, cleaning_frame, generating, completed;
the transitions of that observed sequence are strictly forward along the
enumeration; the numeric progress values present in the trace (0, 10, 40, 60
during generation, 100) are monotonically non-decreasing; the final state
exposes the non-empty result URL; and the retry action resets to the idle
state. -/
theorem C7_happy_path (env : Env) (fuel : Nat) (d b : String) (g : GenOut)
    (v : Option String) (out : RunOut)
    (hp : jsTruthy env.previewUrl = true)
    (hk : env.apiKeyPresent = true)
    (hl : env.videoLoadOk = true)
    (hc : jsTruthy (captureFirstFrame env.capture) = true)
    (hd : (analyzeVideoContent env (dataToAnalyzeOf env) (mimeToAnalyzeOf env)).result = .ok d)
    (hb : (cleanFrame env (firstFrameOf env) "image/png").result = .ok b)
    (hg : generateCleanVideo env b d fuel = some g)
    (hok : g.result = .ok v)
    (hrun : startProcessing env fuel = some out) :
    collapseStatuses (Status.idle :: out.states.map ProcessingState.status) =
      [Status.idle, Status.analyzing, Status.cleaning_frame, Status.generating,
       Status.completed] ∧
    List.Chain' (fun a b => statusRank a < statusRank b)
      (collapseStatuses (Status.idle :: out.states.map ProcessingState.status)) ∧
    List.Chain' (fun a b => a ≤ b)
      ((idleState :: out.states).filterMap ProcessingState.progress) ∧
    (∃ u, out.resultUrl = some u ∧ u ≠ "") ∧
    retryResetState = idleState := by
  obtain ⟨u0, hv, hu0⟩ := generateCleanVideo_ok_shape env b d fuel g v hg hok
  have hne : u0 ++ "&key=" ++ env.apiKey ≠ "" := append_key_ne_empty u0 env.apiKey
  have htr : jsTruthy v = true := by
    rw [hv]
    simpa [jsTruthy] using hne
  unfold startProcessing at hrun
  simp only [hp, hk, hl, hc, hd, hb, hg, hok, htr, Bool.not_true, Bool.false_and,
    Bool.and_self, if_false, ite_false, Bool.false_eq_true] at hrun
  injection hrun with hrun'
  subst hrun'
  have hmapst : (([analyzingState, cleaningState, generatingState] ++
      g.progressMsgs.map cbState ++ [completedState]).map ProcessingState.status) =
      Status.analyzing :: Status.cleaning_frame :: Status.generating ::
        ((g.progressMsgs.map fun _ => Status.generating) ++ [Status.completed]) := by
    simp only [List.map_append, List.map_cons, List.map_nil, map_status_block,
      analyzingState, cleaningState, generatingState, completedState]
    simp [List.append_assoc]
  have hcol : collapseStatuses (Status.idle ::
      (([analyzingState, cleaningState, generatingState] ++
        g.progressMsgs.map cbState ++ [completedState]).map ProcessingState.status)) =
      [Status.idle, Status.analyzing, Status.cleaning_frame, Status.generating,
       Status.completed] := by
    rw [hmapst]
    rw [collapse_cons_ne _ _ _ (by decide), collapse_cons_ne _ _ _ (by decide),
      collapse_cons_ne _ _ _ (by decide), collapse_generating_block]
  refine ⟨hcol, ?_, ?_, ⟨u0 ++ "&key=" ++ env.apiKey, hv, hne⟩, rfl⟩
  · rw [hcol]
    rw [List.chain'_cons, List.chain'_cons, List.chain'_cons, List.chain'_cons]
    refine ⟨by decide, by decide, by decide, by decide, List.chain'_singleton _⟩
  · have hfm : ((idleState :: ([analyzingState, cleaningState, generatingState] ++
        g.progressMsgs.map cbState ++ [completedState])).filterMap ProcessingState.progress) =
        (0 : Nat) :: 10 :: 40 :: 60 ::
          ((g.progressMsgs.map fun _ => (60 : Nat)) ++ [100]) := by
      simp only [List.filterMap_cons, List.filterMap_append, filterMap_progress_block,
        idleState, analyzingState, cleaningState, generatingState, completedState]
      simp [List.append_assoc]
    rw [hfm]
    rw [List.chain'_cons, List.chain'_cons, List.chain'_cons]
    exact ⟨by omega, by omega, by omega, chain_le_block g.progressMsgs⟩

/-- C7 witness: the statement evaluated on the concrete fully successful
run. -/
theorem C7_happy_path_witness :
    collapseStatuses (Status.idle :: happyRunOut.states.map ProcessingState.status) =
      [Status.idle, Status.analyzing, Status.cleaning_frame, Status.generating,
       Status.completed] ∧
    List.Chain' (fun a b => statusRank a < statusRank b)
      (collapseStatuses (Status.idle :: happyRunOut.states.map ProcessingState.status)) ∧
    List.Chain' (fun a b => a ≤ b)
      ((idleState :: happyRunOut.states).filterMap ProcessingState.progress) ∧
    (∃ u, happyRunOut.resultUrl = some u ∧ u ≠ "") ∧
    retryResetState = idleState :=
  C7_happy_path baseOkEnv 1 "a red car drives" "CLEANIMG" happyGenOut
    (some "https://v/result?x=1&key=K") happyRunOut rfl rfl rfl rfl rfl rfl rfl rfl rfl
